import Mathlib

/-!
Verification of the go-blog REST service's request-processing pipeline:
the partial-update query builder, the field-level validators, the
error-classification layer, and the store/handler orchestration, shallowly
embedded from the Go source.  Strings handled at the byte level (the error
classifier) are embedded as lists of byte values (`List Nat`); everywhere
else Go strings are Lean `String`s.  Go machine integers are embedded as
`Int` (no claim depends on 64-bit overflow).  External collaborators
(bcrypt, `net/mail` address parsing) are passed in as function parameters;
the relational backend's execution of the generated SQL is modelled from
the spec where noted.
-/

namespace GoBlog

/-! ## Data model (internal/models/models.go) -/

/-- Embeds `models.UserRequest`: sparse create/update payload for users. -/
structure UserRequest where
  Username : String
  Email : String
  Password : String
  deriving Repr, DecidableEq

/-- Embeds `models.PostRequest`: sparse create/update payload for posts. -/
structure PostRequest where
  Title : String
  Content : String
  UserID : Int
  deriving Repr, DecidableEq

/-- Embeds `models.User` as stored: the `users` table row (id, username, email,
password_hash, created_at).  `created_at` is an abstract timestamp. -/
structure UserRow where
  ID : Int
  Username : String
  Email : String
  PasswordHash : String
  CreatedAt : Nat
  deriving Repr, DecidableEq

/-- Embeds `models.Post` as stored: the `posts` table row. -/
structure PostRow where
  ID : Int
  Title : String
  Content : String
  UserID : Int
  CreatedAt : Nat
  deriving Repr, DecidableEq

/-- The relational store's visible state: the two tables. -/
structure DBState where
  users : List UserRow
  posts : List PostRow
  deriving Repr, DecidableEq

/-- An SQL bind argument: Go passes strings and ints through
`args ...interface\x7b\x7d`. -/
inductive SqlValue where
  | s (v : String)
  | i (v : Int)
  deriving Repr, DecidableEq

/-! ## Error classifier (handlers, `handleDatabaseError` / `contains`)

Go inspects error text byte by byte; a Go string is embedded as its list
of byte values. -/

/-- Byte values of an ASCII string (`Char.toNat` equals the byte for
ASCII, which covers every error message and pattern in the program). -/
def strBytes (s : String) : List Nat :=
  s.data.map Char.toNat

/-- One byte comparison from `containsHelper`'s inner loop:
`s[i+j] != substr[j] && s[i+j] != substr[j]-32 && s[i+j] != substr[j]+32`
negated; Go byte arithmetic wraps modulo 256. -/
def byteMatch (a b : Nat) : Bool :=
  a == b || a == (b + 224) % 256 || a == (b + 32) % 256

/-- The inner `j` loop of `containsHelper`: does `substr` match `s` at
offset `i`? -/
def matchAt (s substr : List Nat) (i : Nat) : Bool :=
  (List.range substr.length).all fun j => byteMatch (s.getD (i + j) 0) (substr.getD j 0)

/-- Embeds `containsHelper` (handlers): scan offsets `0 ≤ i ≤ len s - len substr`.
When `len s < len substr` the Go loop bound is negative and the loop never
runs. -/
def containsHelper (s substr : List Nat) : Bool :=
  if s.length < substr.length then false
  else (List.range (s.length - substr.length + 1)).any fun i => matchAt s substr i

/-- Embeds `contains` (handlers): the guard `len(s) > len(substr)` means the
case-insensitive scan only runs on strictly longer strings; at equal
length only exact equality passes. -/
def contains (s substr : List Nat) : Bool :=
  s.length ≥ substr.length && (s == substr ||
    (s.length > substr.length && containsHelper s substr))

/-- Embeds `handleDatabaseError` (handlers): classify a store error message into
an HTTP status and client message, by first matching pattern. -/
def handleDatabaseError (errMsg : List Nat) : Nat × String :=
  if contains errMsg (strBytes "not found") then (404, "Resource not found")
  else if contains errMsg (strBytes "duplicate") || contains errMsg (strBytes "unique") then
    (409, "Resource already exists")
  else if contains errMsg (strBytes "foreign key") then
    (400, "Invalid reference to related resource")
  else if contains errMsg (strBytes "invalid") || contains errMsg (strBytes "check constraint") then
    (400, "Invalid data provided")
  else (500, "Internal server error")

/-- Spec-side description of the classifier: an ordered rule list, each
rule a set of patterns with its status and message. -/
def errorRules : List (List (List Nat) × Nat × String) :=
  [([strBytes "not found"], 404, "Resource not found"),
   ([strBytes "duplicate", strBytes "unique"], 409, "Resource already exists"),
   ([strBytes "foreign key"], 400, "Invalid reference to related resource"),
   ([strBytes "invalid", strBytes "check constraint"], 400, "Invalid data provided")]

/-- Spec-side classifier: first rule whose pattern set matches wins;
no match falls through to 500. -/
def firstMatch (m : List Nat) : List (List (List Nat) × Nat × String) → Nat × String
  | [] => (500, "Internal server error")
  | (pats, st, msg) :: rest =>
      if pats.any (fun p => contains m p) then (st, msg) else firstMatch m rest

/-! ## Validators (handlers, `ValidateUserRequest` etc.)

Go's `len` on a string counts bytes, embedded as `String.utf8ByteSize`.
`isValidEmail` wraps `net/mail.ParseAddress` and is passed in as a
parameter. -/

/-- Embeds `handlers.ValidationError`: one (field, message) pair. -/
structure ValidationError where
  field : String
  message : String
  deriving Repr, DecidableEq

/-- Embeds `ValidateUserRequest` (create mode).  Returns `none` for a valid
payload, `some errs` with the collected error list otherwise (Go returns
`nil` or `ValidationErrors`). -/
def ValidateUserRequest (isValidEmail : String → Bool) (req : UserRequest) :
    Option (List ValidationError) :=
  let errors : List ValidationError := []
  let errors :=
    if req.Username = "" then errors ++ [⟨"username", "username is required"⟩]
    else if req.Username.utf8ByteSize < 3 then
      errors ++ [⟨"username", "username must be at least 3 characters long"⟩]
    else if req.Username.utf8ByteSize > 50 then
      errors ++ [⟨"username", "username must be no more than 50 characters long"⟩]
    else errors
  let errors :=
    if req.Email = "" then errors ++ [⟨"email", "email is required"⟩]
    else if !isValidEmail req.Email then errors ++ [⟨"email", "email format is invalid"⟩]
    else errors
  let errors :=
    if req.Password = "" then errors ++ [⟨"password", "password is required"⟩]
    else if req.Password.utf8ByteSize < 6 then
      errors ++ [⟨"password", "password must be at least 6 characters long"⟩]
    else errors
  if errors.length > 0 then some errors else none

/-- Embeds `ValidateUserUpdateRequest` (update mode): present fields must be
valid, absence is allowed. -/
def ValidateUserUpdateRequest (isValidEmail : String → Bool) (req : UserRequest) :
    Option (List ValidationError) :=
  let errors : List ValidationError := []
  let errors :=
    if req.Username ≠ "" then
      if req.Username.utf8ByteSize < 3 then
        errors ++ [⟨"username", "username must be at least 3 characters long"⟩]
      else if req.Username.utf8ByteSize > 50 then
        errors ++ [⟨"username", "username must be no more than 50 characters long"⟩]
      else errors
    else errors
  let errors :=
    if req.Email ≠ "" && !isValidEmail req.Email then
      errors ++ [⟨"email", "email format is invalid"⟩]
    else errors
  let errors :=
    if req.Password ≠ "" && req.Password.utf8ByteSize < 6 then
      errors ++ [⟨"password", "password must be at least 6 characters long"⟩]
    else errors
  if errors.length > 0 then some errors else none

/-- Embeds `ValidatePostRequest` (create mode). -/
def ValidatePostRequest (req : PostRequest) : Option (List ValidationError) :=
  let errors : List ValidationError := []
  let errors :=
    if req.Title = "" then errors ++ [⟨"title", "title is required"⟩]
    else if req.Title.utf8ByteSize > 255 then
      errors ++ [⟨"title", "title must be no more than 255 characters long"⟩]
    else errors
  let errors :=
    if req.Content = "" then errors ++ [⟨"content", "content is required"⟩]
    else errors
  let errors :=
    if req.UserID ≤ 0 then errors ++ [⟨"user_id", "user_id must be a positive integer"⟩]
    else errors
  if errors.length > 0 then some errors else none

/-- Embeds `ValidatePostUpdateRequest` (update mode): content is unconstrained,
`user_id` must be non-negative. -/
def ValidatePostUpdateRequest (req : PostRequest) : Option (List ValidationError) :=
  let errors : List ValidationError := []
  let errors :=
    if req.Title ≠ "" && req.Title.utf8ByteSize > 255 then
      errors ++ [⟨"title", "title must be no more than 255 characters long"⟩]
    else errors
  let errors :=
    if req.UserID < 0 then errors ++ [⟨"user_id", "user_id must be a non-negative integer"⟩]
    else errors
  if errors.length > 0 then some errors else none

/-! ## URL id parsing (handlers, `parseIDFromURL`) -/

/-- Digit run to a number: `strconv.Atoi`'s digit loop. `none` when the
run is empty or holds a non-digit. -/
def digitsVal : List Char → Option Nat
  | [] => none
  | l =>
      if l.all (·.isDigit) then
        some (l.foldl (fun acc c => acc * 10 + (c.toNat - 48)) 0)
      else none

/-- Embeds `strconv.Atoi`: optional sign then digits.  The 64-bit range error is
not modelled (an overflowing numeral also makes Go's `Atoi` return an
error, which the handlers treat the same as any parse failure). -/
def strconvAtoi (s : String) : Option Int :=
  match s.data with
  | [] => none
  | '+' :: rest => (digitsVal rest).map Int.ofNat
  | '-' :: rest => (digitsVal rest).map (fun n => -(Int.ofNat n))
  | l => (digitsVal l).map Int.ofNat

/-- Embeds `parseIDFromURL`: the route variable is `none` when absent; a parse
failure or a value `≤ 0` is an error (Go returns `(0, err)`, here
`none`). -/
def parseIDFromURL (idStr : Option String) : Option Int :=
  match idStr with
  | none => none
  | some v =>
      match strconvAtoi v with
      | none => none
      | some id => if id ≤ 0 then none else some id

/-! ## Partial-update query builder (users.go `UpdateUser`,
posts.go `UpdatePost`, field-collection phase)

Each present field appends one `column = $k` string to `setParts`, its
bound value to `args`, and increments `argIndex` (starting at 1).  The
returned counter is the number the code then uses in `WHERE id = $N`,
where the entity id is appended as the final argument. -/

/-- The `setParts`/`args`/`argIndex` loop of `UpdateUser`.  The password
value is bound as its bcrypt hash (`bcrypt.GenerateFromPassword`,
passed in as `hash`; its error path fires only for invalid cost and is
not modelled). -/
def buildUserUpdate (hash : String → String) (req : UserRequest) :
    List String × List SqlValue × Nat :=
  let setParts : List String := []
  let args : List SqlValue := []
  let argIndex : Nat := 1
  let (setParts, args, argIndex) :=
    if req.Username ≠ "" then
      (setParts ++ ["username = $" ++ toString argIndex],
       args ++ [SqlValue.s req.Username], argIndex + 1)
    else (setParts, args, argIndex)
  let (setParts, args, argIndex) :=
    if req.Email ≠ "" then
      (setParts ++ ["email = $" ++ toString argIndex],
       args ++ [SqlValue.s req.Email], argIndex + 1)
    else (setParts, args, argIndex)
  let (setParts, args, argIndex) :=
    if req.Password ≠ "" then
      (setParts ++ ["password_hash = $" ++ toString argIndex],
       args ++ [SqlValue.s (hash req.Password)], argIndex + 1)
    else (setParts, args, argIndex)
  (setParts, args, argIndex)

/-- The `setParts`/`args`/`argIndex` loop of `UpdatePost`. -/
def buildPostUpdate (req : PostRequest) : List String × List SqlValue × Nat :=
  let setParts : List String := []
  let args : List SqlValue := []
  let argIndex : Nat := 1
  let (setParts, args, argIndex) :=
    if req.Title ≠ "" then
      (setParts ++ ["title = $" ++ toString argIndex],
       args ++ [SqlValue.s req.Title], argIndex + 1)
    else (setParts, args, argIndex)
  let (setParts, args, argIndex) :=
    if req.Content ≠ "" then
      (setParts ++ ["content = $" ++ toString argIndex],
       args ++ [SqlValue.s req.Content], argIndex + 1)
    else (setParts, args, argIndex)
  let (setParts, args, argIndex) :=
    if req.UserID ≠ 0 then
      (setParts ++ ["user_id = $" ++ toString argIndex],
       args ++ [SqlValue.i req.UserID], argIndex + 1)
    else (setParts, args, argIndex)
  (setParts, args, argIndex)

/-! ## Spec-side description of the builder, for the refinement claim -/

/-- Spec-side: the present fields of a sparse user payload, in payload
declaration order, with their bound values. -/
def userPresentFields (hash : String → String) (req : UserRequest) :
    List (String × SqlValue) :=
  (if req.Username ≠ "" then [("username", SqlValue.s req.Username)] else []) ++
  (if req.Email ≠ "" then [("email", SqlValue.s req.Email)] else []) ++
  (if req.Password ≠ "" then [("password_hash", SqlValue.s (hash req.Password))] else [])

/-- Spec-side: the present fields of a sparse post payload, in payload
declaration order. -/
def postPresentFields (req : PostRequest) : List (String × SqlValue) :=
  (if req.Title ≠ "" then [("title", SqlValue.s req.Title)] else []) ++
  (if req.Content ≠ "" then [("content", SqlValue.s req.Content)] else []) ++
  (if req.UserID ≠ 0 then [("user_id", SqlValue.i req.UserID)] else [])

/-- Spec-side: number a column list contiguously starting at `k`,
rendering `column = $k` texts. -/
def numberParts (k : Nat) : List (String × SqlValue) → List String
  | [] => []
  | (c, _) :: rest => (c ++ " = $" ++ toString k) :: numberParts (k + 1) rest

/-! ## Entity store (internal/database)

The Go functions issue SQL; the relational backend's execution of each
statement is modelled from the spec where noted.  Store errors are the
Go error strings (wrapped backend failures other than the ones below are
not modelled, as no claim depends on them). -/

/-- Modelled from the spec: a SERIAL primary key assigned by the store —
fresh, positive. -/
def nextId (ids : List Int) : Int := ids.foldl max 0 + 1

/-- Embeds `GetUserByID` (users.go): `SELECT id, username, email, created_at
FROM users WHERE id = $1`; `sql.ErrNoRows` becomes "user not found".
The SELECT omits `password_hash`, so the scanned struct keeps the zero
value there. -/
def GetUserByID (st : DBState) (id : Int) : Except String UserRow :=
  match st.users.find? (fun u => u.ID == id) with
  | none => .error "user not found"
  | some u => .ok { u with PasswordHash := "" }

/-- Embeds `GetPostByID` (posts.go): post row inner-joined with its owner's
username; a missing post (or a join with no owner row) is
`sql.ErrNoRows`, i.e. "post not found". -/
def GetPostByID (st : DBState) (id : Int) : Except String (PostRow × String) :=
  match st.posts.find? (fun p => p.ID == id) with
  | none => .error "post not found"
  | some p =>
      match st.users.find? (fun u => u.ID == p.UserID) with
      | none => .error "post not found"
      | some u => .ok (p, u.Username)

/-- Embeds `CreateUser` (users.go): hash the password, `INSERT ... RETURNING id,
username, email, created_at`.  Modelled from the spec: the store assigns
a fresh id and enforces the username/email UNIQUE constraints, whose
violation surfaces as a wrapped "duplicate key ..." error. -/
def CreateUser (hash : String → String) (now : Nat) (st : DBState) (req : UserRequest) :
    Except String UserRow × DBState :=
  if st.users.any (fun u => u.Username == req.Username || u.Email == req.Email) then
    (.error "failed to create user: duplicate key value violates unique constraint", st)
  else
    let row : UserRow :=
      ⟨nextId (st.users.map (·.ID)), req.Username, req.Email, hash req.Password, now⟩
    (.ok { row with PasswordHash := "" }, { st with users := st.users ++ [row] })

/-- Embeds `CreatePost` (posts.go): `INSERT ... RETURNING id, title, content,
user_id, created_at`.  Modelled from the spec: the store assigns a fresh
id and rejects a dangling `user_id` through the foreign-key
constraint. -/
def CreatePost (now : Nat) (st : DBState) (req : PostRequest) :
    Except String PostRow × DBState :=
  if st.users.any (fun u => u.ID == req.UserID) then
    let row : PostRow :=
      ⟨nextId (st.posts.map (·.ID)), req.Title, req.Content, req.UserID, now⟩
    (.ok row, { st with posts := st.posts ++ [row] })
  else
    (.error "failed to create post: insert or update on table posts violates foreign key constraint", st)

/-- The column assignments of the built user UPDATE, as a row
transformer: exactly the present fields are assigned, the password as
its bcrypt hash. -/
def applyUserReq (hash : String → String) (req : UserRequest) (u : UserRow) : UserRow :=
  { u with
    Username := if req.Username ≠ "" then req.Username else u.Username,
    Email := if req.Email ≠ "" then req.Email else u.Email,
    PasswordHash := if req.Password ≠ "" then hash req.Password else u.PasswordHash }

/-- The column assignments of the built post UPDATE, as a row
transformer. -/
def applyPostReq (req : PostRequest) (p : PostRow) : PostRow :=
  { p with
    Title := if req.Title ≠ "" then req.Title else p.Title,
    Content := if req.Content ≠ "" then req.Content else p.Content,
    UserID := if req.UserID ≠ 0 then req.UserID else p.UserID }

/-- Modelled from the spec: execution of `UPDATE users SET ...
WHERE id = $N RETURNING ...` — every row whose id matches gets exactly
the assigned columns set; `QueryRow.Scan` sees the first updated row, or
`sql.ErrNoRows` (`none`) when no row matched. -/
def execUpdateUsers (st : DBState) (f : UserRow → UserRow) (id : Int) :
    Option UserRow × DBState :=
  ((st.users.find? (fun u => u.ID == id)).map f,
   { st with users := st.users.map fun u => if u.ID == id then f u else u })

/-- Modelled from the spec: execution of `UPDATE posts SET ...
WHERE id = $N RETURNING ...`. -/
def execUpdatePosts (st : DBState) (f : PostRow → PostRow) (id : Int) :
    Option PostRow × DBState :=
  ((st.posts.find? (fun p => p.ID == id)).map f,
   { st with posts := st.posts.map fun p => if p.ID == id then f p else p })

/-- Embeds `UpdateUser` (users.go): run the builder, fail "no fields to update"
on an empty assignment list before any query is issued, otherwise apply
the built UPDATE; `sql.ErrNoRows` from RETURNING becomes "user not
found".  The RETURNING scan omits `password_hash`. -/
def UpdateUser (hash : String → String) (id : Int) (req : UserRequest) (st : DBState) :
    Except String UserRow × DBState :=
  let b := buildUserUpdate hash req
  if b.1 = [] then (.error "no fields to update", st)
  else
    match execUpdateUsers st (applyUserReq hash req) id with
    | (none, st') => (.error "user not found", st')
    | (some row, st') => (.ok { row with PasswordHash := "" }, st')

/-- Embeds `UpdatePost` (posts.go): as `UpdateUser`, for posts. -/
def UpdatePost (id : Int) (req : PostRequest) (st : DBState) :
    Except String PostRow × DBState :=
  let b := buildPostUpdate req
  if b.1 = [] then (.error "no fields to update", st)
  else
    match execUpdatePosts st (applyPostReq req) id with
    | (none, st') => (.error "post not found", st')
    | (some row, st') => (.ok row, st')

/-- Embeds `DeleteUser` (users.go): `DELETE FROM users WHERE id = $1`; zero
rows affected is "user not found".  The DELETE's effect and
`RowsAffected` are modelled from the spec, including the schema's
`ON DELETE CASCADE` on posts. -/
def DeleteUser (st : DBState) (id : Int) : Except String Unit × DBState :=
  let rowsAffected := st.users.countP (fun u => u.ID == id)
  let st' : DBState :=
    { users := st.users.filter (fun u => !(u.ID == id)),
      posts := st.posts.filter
        (fun p => !(p.UserID == id && st.users.any (fun u => u.ID == id))) }
  if rowsAffected = 0 then (.error "user not found", st')
  else (.ok (), st')

/-- Embeds `DeletePost` (posts.go): zero rows affected is "post not found". -/
def DeletePost (st : DBState) (id : Int) : Except String Unit × DBState :=
  let rowsAffected := st.posts.countP (fun p => p.ID == id)
  let st' : DBState := { st with posts := st.posts.filter (fun p => !(p.ID == id)) }
  if rowsAffected = 0 then (.error "post not found", st')
  else (.ok (), st')

/-- Embeds `VerifyPassword` (users.go): look the user up by username (this
SELECT does retrieve the hash), compare via bcrypt (`check hash pw`,
passed in), and clear the hash before returning. -/
def VerifyPassword (check : String → String → Bool) (st : DBState)
    (username password : String) : Except String UserRow :=
  match st.users.find? (fun u => u.Username == username) with
  | none => .error "user not found"
  | some user =>
      if check user.PasswordHash password then .ok { user with PasswordHash := "" }
      else .error "invalid password"

/-! ## JSON surface of a User (models.go struct tags)

`encoding/json` serializes the tagged fields in declaration order;
the tag `json:"-"` on `PasswordHash` excludes it. -/

/-- The JSON key/value pairs emitted for a `models.User`: id, username,
email, created_at — and nothing for the hash. -/
def userJSONFields (u : UserRow) : List (String × String) :=
  [("id", toString u.ID), ("username", u.Username), ("email", u.Email),
   ("created_at", toString u.CreatedAt)]

/-! ## Request handlers (internal/handlers, src/unnamed parts)

A handler is embedded as a function from its parsed inputs and the store
state to the written response, the resulting state, and the list of
store operations it invoked — JSON body decoding and the request context
plumbing are glue and not modelled.  `dbErrorResp` is the composition
with the error classifier at the handler boundary. -/

/-- HTTP response bodies the handlers write. -/
inductive RespBody where
  | errMsg (message : String)
  | validationErrs (errs : List ValidationError)
  | userData (u : UserRow)
  | postData (p : PostRow)
  | postJoined (p : PostRow) (username : String)
  | successMsg (message : String)
  deriving Repr, DecidableEq

/-- A written HTTP response: status code and body. -/
structure HResp where
  status : Nat
  body : RespBody
  deriving Repr, DecidableEq

/-- A store operation invoked by a handler. -/
inductive StoreCall where
  | getUserByID (id : Int)
  | getPostByID (id : Int)
  | createUser
  | createPost
  | updateUser (id : Int)
  | updatePost (id : Int)
  | deleteUser (id : Int)
  | deletePost (id : Int)
  deriving Repr, DecidableEq

/-- Embeds `handleDatabaseError` as a response writer: classify the store error
message and write the mapped status and message. -/
def dbErrorResp (e : String) : HResp :=
  ⟨(handleDatabaseError (strBytes e)).1, .errMsg (handleDatabaseError (strBytes e)).2⟩

namespace UserHandler

/-- Embeds `UserHandler.CreateUser`: validate, then insert. -/
def CreateUser (hash : String → String) (isValidEmail : String → Bool) (now : Nat)
    (req : UserRequest) (st : DBState) : HResp × DBState × List StoreCall :=
  match ValidateUserRequest isValidEmail req with
  | some errs => (⟨400, .validationErrs errs⟩, st, [])
  | none =>
      match GoBlog.CreateUser hash now st req with
      | (.error e, st') => (dbErrorResp e, st', [.createUser])
      | (.ok u, st') => (⟨201, .userData u⟩, st', [.createUser])

/-- Embeds `UserHandler.GetUser`: parse the id, then fetch. -/
def GetUser (idParam : Option String) (st : DBState) : HResp × List StoreCall :=
  match parseIDFromURL idParam with
  | none => (⟨400, .errMsg "Invalid user ID"⟩, [])
  | some id =>
      match GetUserByID st id with
      | .error e => (dbErrorResp e, [.getUserByID id])
      | .ok u => (⟨200, .userData u⟩, [.getUserByID id])

/-- Embeds `UserHandler.UpdateUser`: parse the id, validate the sparse payload,
reject an all-absent payload with 400 before calling the store, then
apply the store update. -/
def UpdateUser (hash : String → String) (isValidEmail : String → Bool)
    (idParam : Option String) (req : UserRequest) (st : DBState) :
    HResp × DBState × List StoreCall :=
  match parseIDFromURL idParam with
  | none => (⟨400, .errMsg "Invalid user ID"⟩, st, [])
  | some id =>
      match ValidateUserUpdateRequest isValidEmail req with
      | some errs => (⟨400, .validationErrs errs⟩, st, [])
      | none =>
          if req.Username = "" ∧ req.Email = "" ∧ req.Password = "" then
            (⟨400, .errMsg "At least one field must be provided for update"⟩, st, [])
          else
            match GoBlog.UpdateUser hash id req st with
            | (.error e, st') => (dbErrorResp e, st', [.updateUser id])
            | (.ok u, st') => (⟨200, .userData u⟩, st', [.updateUser id])

/-- Embeds `UserHandler.DeleteUser`. -/
def DeleteUser (idParam : Option String) (st : DBState) :
    HResp × DBState × List StoreCall :=
  match parseIDFromURL idParam with
  | none => (⟨400, .errMsg "Invalid user ID"⟩, st, [])
  | some id =>
      match GoBlog.DeleteUser st id with
      | (.error e, st') => (dbErrorResp e, st', [.deleteUser id])
      | (.ok _, st') => (⟨200, .successMsg "User deleted successfully"⟩, st', [.deleteUser id])

end UserHandler

namespace PostHandler

/-- Embeds `PostHandler.CreatePost`: validate, verify the referenced user
exists (a failed lookup is answered with a dedicated 400, not passed to
the classifier), then insert. -/
def CreatePost (now : Nat) (req : PostRequest) (st : DBState) :
    HResp × DBState × List StoreCall :=
  match ValidatePostRequest req with
  | some errs => (⟨400, .validationErrs errs⟩, st, [])
  | none =>
      match GetUserByID st req.UserID with
      | .error _ =>
          (⟨400, .errMsg "Invalid user ID: user does not exist"⟩, st, [.getUserByID req.UserID])
      | .ok _ =>
          match GoBlog.CreatePost now st req with
          | (.error e, st') => (dbErrorResp e, st', [.getUserByID req.UserID, .createPost])
          | (.ok p, st') => (⟨201, .postData p⟩, st', [.getUserByID req.UserID, .createPost])

/-- Embeds `PostHandler.GetPost`. -/
def GetPost (idParam : Option String) (st : DBState) : HResp × List StoreCall :=
  match parseIDFromURL idParam with
  | none => (⟨400, .errMsg "Invalid post ID"⟩, [])
  | some id =>
      match GetPostByID st id with
      | .error e => (dbErrorResp e, [.getPostByID id])
      | .ok (p, un) => (⟨200, .postJoined p un⟩, [.getPostByID id])

/-- Embeds `PostHandler.UpdatePost`: parse the id, validate, reject an
all-absent payload, verify a supplied (non-zero) `user_id` references an
existing user, then apply the store update. -/
def UpdatePost (idParam : Option String) (req : PostRequest) (st : DBState) :
    HResp × DBState × List StoreCall :=
  match parseIDFromURL idParam with
  | none => (⟨400, .errMsg "Invalid post ID"⟩, st, [])
  | some id =>
      match ValidatePostUpdateRequest req with
      | some errs => (⟨400, .validationErrs errs⟩, st, [])
      | none =>
          if req.Title = "" ∧ req.Content = "" ∧ req.UserID = 0 then
            (⟨400, .errMsg "At least one field must be provided for update"⟩, st, [])
          else if req.UserID ≠ 0 then
            match GetUserByID st req.UserID with
            | .error _ =>
                (⟨400, .errMsg "Invalid user ID: user does not exist"⟩, st,
                 [.getUserByID req.UserID])
            | .ok _ =>
                match GoBlog.UpdatePost id req st with
                | (.error e, st') =>
                    (dbErrorResp e, st', [.getUserByID req.UserID, .updatePost id])
                | (.ok p, st') =>
                    (⟨200, .postData p⟩, st', [.getUserByID req.UserID, .updatePost id])
          else
            match GoBlog.UpdatePost id req st with
            | (.error e, st') => (dbErrorResp e, st', [.updatePost id])
            | (.ok p, st') => (⟨200, .postData p⟩, st', [.updatePost id])

/-- Embeds `PostHandler.DeletePost`. -/
def DeletePost (idParam : Option String) (st : DBState) :
    HResp × DBState × List StoreCall :=
  match parseIDFromURL idParam with
  | none => (⟨400, .errMsg "Invalid post ID"⟩, st, [])
  | some id =>
      match GoBlog.DeletePost st id with
      | (.error e, st') => (dbErrorResp e, st', [.deletePost id])
      | (.ok _, st') => (⟨200, .successMsg "Post deleted successfully"⟩, st', [.deletePost id])

end PostHandler

end GoBlog

namespace GoBlog

/-- C2 helper: the code's classifier equals the spec's first-match rule
table, for every message. -/
theorem handleDatabaseError_eq_firstMatch (m : List Nat) :
    handleDatabaseError m = firstMatch m errorRules := by
  simp only [handleDatabaseError, firstMatch, errorRules, List.any_cons, List.any_nil,
    Bool.or_false]

/-- C2: for every store error message the classifier answers with the
first matching rule in the precedence order "not found" → 404,
"duplicate"/"unique" → 409, "foreign key" → 400,
"invalid"/"check constraint" → 400, anything else → 500; in particular a
message matching both "not found" and "duplicate" classifies as 404. -/
theorem classifier_first_match_precedence (m : List Nat)
    (hnf : contains m (strBytes "not found") = true)
    (_hdup : contains m (strBytes "duplicate") = true) :
    (∀ w, handleDatabaseError w = firstMatch w errorRules) ∧
    handleDatabaseError m = (404, "Resource not found") ∧
    (∀ w, contains w (strBytes "not found") = false →
      contains w (strBytes "duplicate") = false →
      contains w (strBytes "unique") = false →
      contains w (strBytes "foreign key") = false →
      contains w (strBytes "invalid") = false →
      contains w (strBytes "check constraint") = false →
      handleDatabaseError w = (500, "Internal server error")) := by
  refine ⟨handleDatabaseError_eq_firstMatch, ?_, ?_⟩
  · simp [handleDatabaseError, hnf]
  · intro w h1 h2 h3 h4 h5 h6
    simp [handleDatabaseError, h1, h2, h3, h4, h5, h6]

/-- Witness for C2: a message holding both "duplicate" and "not found"
classifies as 404, and an unmatched message as 500. -/
theorem classifier_first_match_precedence_witness :
    handleDatabaseError (strBytes "duplicate row not found") = (404, "Resource not found") ∧
    handleDatabaseError (strBytes "connection reset") = (500, "Internal server error") := by
  have h := classifier_first_match_precedence (strBytes "duplicate row not found")
    (by decide) (by decide)
  exact ⟨h.2.1, h.2.2 (strBytes "connection reset") (by decide) (by decide) (by decide)
    (by decide) (by decide) (by decide)⟩

/-- C3 (code bug): matching is NOT case-insensitive when the message has
exactly the pattern's length — `contains`'s `len(s) > len(substr)` guard
skips the case-insensitive scan there, although the scan itself (shown in
the third conjunct) would match.  So "not found" classifies as 404 but
"NOT FOUND" as 500, contradicting the claim and the function's own
"(case-insensitive)" documentation. -/
theorem contains_equal_length_case_bug :
    handleDatabaseError (strBytes "not found") = (404, "Resource not found") ∧
    handleDatabaseError (strBytes "NOT FOUND") = (500, "Internal server error") ∧
    containsHelper (strBytes "NOT FOUND") (strBytes "not found") = true ∧
    contains (strBytes "NOT FOUND") (strBytes "not found") = false := by
  decide

/-- Builder characterization for users: for every payload, the three-if
loop produces exactly the present fields, in declaration order, numbered
contiguously from 1, with the matching values, and leaves the counter one
past the last assignment. -/
theorem buildUserUpdate_eq (hash : String → String) (req : UserRequest) :
    buildUserUpdate hash req =
      (numberParts 1 (userPresentFields hash req),
       (userPresentFields hash req).map (·.2),
       (userPresentFields hash req).length + 1) := by
  by_cases h1 : req.Username = "" <;> by_cases h2 : req.Email = "" <;>
    by_cases h3 : req.Password = "" <;>
    simp [buildUserUpdate, userPresentFields, numberParts, h1, h2, h3]

/-- Builder characterization for posts. -/
theorem buildPostUpdate_eq (req : PostRequest) :
    buildPostUpdate req =
      (numberParts 1 (postPresentFields req),
       (postPresentFields req).map (·.2),
       (postPresentFields req).length + 1) := by
  by_cases h1 : req.Title = "" <;> by_cases h2 : req.Content = "" <;>
    by_cases h3 : req.UserID = 0 <;>
    simp [buildPostUpdate, postPresentFields, numberParts, h1, h2, h3]

/-- C1: for every sparse update payload with at least one present field,
the builder emits the `column = $k` assignments in payload declaration
order (title, content, user_id for posts; username, email, password_hash
for users), numbered contiguously from 1, with the bound argument list
matching the assignments in order, and returns as the WHERE-clause
placeholder (which binds the entity id, appended as the last argument)
the number one past the last assignment. -/
theorem update_builder_ordering (hash : String → String)
    (ureq : UserRequest) (preq : PostRequest)
    (hu : ureq.Username ≠ "" ∨ ureq.Email ≠ "" ∨ ureq.Password ≠ "")
    (hp : preq.Title ≠ "" ∨ preq.Content ≠ "" ∨ preq.UserID ≠ 0) :
    (buildUserUpdate hash ureq =
      (numberParts 1 (userPresentFields hash ureq),
       (userPresentFields hash ureq).map (·.2),
       (userPresentFields hash ureq).length + 1) ∧
     userPresentFields hash ureq ≠ []) ∧
    (buildPostUpdate preq =
      (numberParts 1 (postPresentFields preq),
       (postPresentFields preq).map (·.2),
       (postPresentFields preq).length + 1) ∧
     postPresentFields preq ≠ []) := by
  refine ⟨⟨buildUserUpdate_eq hash ureq, ?_⟩, ⟨buildPostUpdate_eq preq, ?_⟩⟩
  · rcases hu with h | h | h <;>
      simp [userPresentFields, h]
  · rcases hp with h | h | h <;>
      simp [postPresentFields, h]

/-- Witness for C1 at concrete payloads. -/
theorem update_builder_ordering_witness :
    buildUserUpdate (fun s => s ++ "#h") ⟨"alice", "", "secret1"⟩ =
      (["username = $1", "password_hash = $2"],
       [SqlValue.s "alice", SqlValue.s "secret1#h"], 3) ∧
    buildPostUpdate ⟨"t", "body", 7⟩ =
      (["title = $1", "content = $2", "user_id = $3"],
       [SqlValue.s "t", SqlValue.s "body", SqlValue.i 7], 4) := by
  have h := update_builder_ordering (fun s => s ++ "#h") ⟨"alice", "", "secret1"⟩
    ⟨"t", "body", 7⟩ (Or.inl (by decide)) (Or.inl (by decide))
  refine ⟨?_, ?_⟩
  · rw [h.1.1]; rfl
  · rw [h.2.1]; rfl

/-- C4: an update payload with zero present fields fails with the
NoFieldsProvided condition and no store query: the store-layer builders
return "no fields to update" leaving the state untouched, and the
handlers answer 400 with an empty store-call list (given a well-formed
id parameter, which is parsed first). -/
theorem no_fields_update_rejected
    (hash : String → String) (isE : String → Bool)
    (ureq : UserRequest) (preq : PostRequest) (idStr : String) (id : Int)
    (uid pid : Int) (st : DBState)
    (hu : ureq.Username = "" ∧ ureq.Email = "" ∧ ureq.Password = "")
    (hp : preq.Title = "" ∧ preq.Content = "" ∧ preq.UserID = 0)
    (hid : parseIDFromURL (some idStr) = some id) :
    UpdateUser hash uid ureq st = (.error "no fields to update", st) ∧
    UpdatePost pid preq st = (.error "no fields to update", st) ∧
    UserHandler.UpdateUser hash isE (some idStr) ureq st =
      (⟨400, .errMsg "At least one field must be provided for update"⟩, st, []) ∧
    PostHandler.UpdatePost (some idStr) preq st =
      (⟨400, .errMsg "At least one field must be provided for update"⟩, st, []) := by
  obtain ⟨h1, h2, h3⟩ := hu
  obtain ⟨g1, g2, g3⟩ := hp
  refine ⟨?_, ?_, ?_, ?_⟩
  · simp [UpdateUser, buildUserUpdate, h1, h2, h3]
  · simp [UpdatePost, buildPostUpdate, g1, g2, g3]
  · simp [UserHandler.UpdateUser, hid, ValidateUserUpdateRequest, h1, h2, h3]
  · simp [PostHandler.UpdatePost, hid, ValidatePostUpdateRequest, g1, g2, g3]

/-- Witness for C4 at the all-absent payloads. -/
theorem no_fields_update_rejected_witness :
    UpdateUser (fun s => s) 2 ⟨"", "", ""⟩ ⟨[], []⟩ =
      (.error "no fields to update", ⟨[], []⟩) ∧
    UpdatePost 3 ⟨"", "", 0⟩ ⟨[], []⟩ = (.error "no fields to update", ⟨[], []⟩) ∧
    UserHandler.UpdateUser (fun s => s) (fun _ => true) (some "1") ⟨"", "", ""⟩ ⟨[], []⟩ =
      (⟨400, .errMsg "At least one field must be provided for update"⟩, ⟨[], []⟩, []) ∧
    PostHandler.UpdatePost (some "1") ⟨"", "", 0⟩ ⟨[], []⟩ =
      (⟨400, .errMsg "At least one field must be provided for update"⟩, ⟨[], []⟩, []) := by
  exact no_fields_update_rejected (fun s => s) (fun _ => true) ⟨"", "", ""⟩ ⟨"", "", 0⟩
    "1" 1 2 3 ⟨[], []⟩ ⟨rfl, rfl, rfl⟩ ⟨rfl, rfl, rfl⟩ (by decide)

/-- A create-user handler answers a failed validation with 400 and calls
no store operation. -/
theorem createUserHandler_invalid (hash : String → String) (isE : String → Bool)
    (now : Nat) (req : UserRequest) (st : DBState) (errs : List ValidationError)
    (h : ValidateUserRequest isE req = some errs) :
    UserHandler.CreateUser hash isE now req st = (⟨400, .validationErrs errs⟩, st, []) := by
  simp [UserHandler.CreateUser, h]

/-- A create-post handler answers a failed validation with 400 and calls
no store operation. -/
theorem createPostHandler_invalid (now : Nat) (req : PostRequest) (st : DBState)
    (errs : List ValidationError) (h : ValidatePostRequest req = some errs) :
    PostHandler.CreatePost now req st = (⟨400, .validationErrs errs⟩, st, []) := by
  simp [PostHandler.CreatePost, h]

/-- Missing username yields an error list naming "username". -/
theorem validateUser_username_missing (isE : String → Bool) (req : UserRequest)
    (h : req.Username = "") :
    ∃ errs, ValidateUserRequest isE req = some errs ∧
      ⟨"username", "username is required"⟩ ∈ errs := by
  by_cases he : req.Email = "" <;> by_cases hv : isE req.Email = true <;>
    by_cases hp : req.Password = "" <;> by_cases hl : req.Password.utf8ByteSize < 6 <;>
    simp [ValidateUserRequest, h, he, hv, hp, hl]

/-- Missing email yields an error list naming "email". -/
theorem validateUser_email_missing (isE : String → Bool) (req : UserRequest)
    (h : req.Email = "") :
    ∃ errs, ValidateUserRequest isE req = some errs ∧
      ⟨"email", "email is required"⟩ ∈ errs := by
  by_cases h1 : req.Username = "" <;> by_cases h2 : req.Username.utf8ByteSize < 3 <;>
    by_cases h3 : req.Username.utf8ByteSize > 50 <;> by_cases hp : req.Password = "" <;>
    by_cases hl : req.Password.utf8ByteSize < 6 <;>
    simp [ValidateUserRequest, h, h1, h2, h3, hp, hl]

/-- Missing password yields an error list naming "password". -/
theorem validateUser_password_missing (isE : String → Bool) (req : UserRequest)
    (h : req.Password = "") :
    ∃ errs, ValidateUserRequest isE req = some errs ∧
      ⟨"password", "password is required"⟩ ∈ errs := by
  by_cases h1 : req.Username = "" <;> by_cases h2 : req.Username.utf8ByteSize < 3 <;>
    by_cases h3 : req.Username.utf8ByteSize > 50 <;> by_cases he : req.Email = "" <;>
    by_cases hv : isE req.Email = true <;>
    simp [ValidateUserRequest, h, h1, h2, h3, he, hv]

/-- Missing title yields an error list naming "title". -/
theorem validatePost_title_missing (req : PostRequest) (h : req.Title = "") :
    ∃ errs, ValidatePostRequest req = some errs ∧
      ⟨"title", "title is required"⟩ ∈ errs := by
  by_cases hc : req.Content = "" <;> by_cases hu : req.UserID ≤ 0 <;>
    simp [ValidatePostRequest, h, hc, hu]

/-- Missing content yields an error list naming "content". -/
theorem validatePost_content_missing (req : PostRequest) (h : req.Content = "") :
    ∃ errs, ValidatePostRequest req = some errs ∧
      ⟨"content", "content is required"⟩ ∈ errs := by
  by_cases h1 : req.Title = "" <;> by_cases h2 : req.Title.utf8ByteSize > 255 <;>
    by_cases hu : req.UserID ≤ 0 <;>
    simp [ValidatePostRequest, h, h1, h2, hu]

/-- Non-positive owner id yields an error list naming "user_id". -/
theorem validatePost_userID_missing (req : PostRequest) (h : req.UserID ≤ 0) :
    ∃ errs, ValidatePostRequest req = some errs ∧
      ⟨"user_id", "user_id must be a positive integer"⟩ ∈ errs := by
  by_cases h1 : req.Title = "" <;> by_cases h2 : req.Title.utf8ByteSize > 255 <;>
    by_cases hc : req.Content = "" <;>
    simp [ValidatePostRequest, h, h1, h2, hc]

/-- C5: create-payload validation collects all violations into an ordered
(field, message) list — a user payload missing username, email and
password yields exactly those three errors in declaration order — and
whenever a required field is missing, validation reports it and the
create handler answers 400 without any store call. -/
theorem validation_collects_all_errors (hash : String → String) (isE : String → Bool)
    (now : Nat) (ureq : UserRequest) (preq : PostRequest) (st : DBState) :
    ValidateUserRequest isE ⟨"", "", ""⟩ =
      some [⟨"username", "username is required"⟩, ⟨"email", "email is required"⟩,
            ⟨"password", "password is required"⟩] ∧
    (ureq.Username = "" → ∃ errs, ValidateUserRequest isE ureq = some errs ∧
      (∃ e ∈ errs, e.field = "username") ∧
      UserHandler.CreateUser hash isE now ureq st = (⟨400, .validationErrs errs⟩, st, [])) ∧
    (ureq.Email = "" → ∃ errs, ValidateUserRequest isE ureq = some errs ∧
      (∃ e ∈ errs, e.field = "email") ∧
      UserHandler.CreateUser hash isE now ureq st = (⟨400, .validationErrs errs⟩, st, [])) ∧
    (ureq.Password = "" → ∃ errs, ValidateUserRequest isE ureq = some errs ∧
      (∃ e ∈ errs, e.field = "password") ∧
      UserHandler.CreateUser hash isE now ureq st = (⟨400, .validationErrs errs⟩, st, [])) ∧
    (preq.Title = "" → ∃ errs, ValidatePostRequest preq = some errs ∧
      (∃ e ∈ errs, e.field = "title") ∧
      PostHandler.CreatePost now preq st = (⟨400, .validationErrs errs⟩, st, [])) ∧
    (preq.Content = "" → ∃ errs, ValidatePostRequest preq = some errs ∧
      (∃ e ∈ errs, e.field = "content") ∧
      PostHandler.CreatePost now preq st = (⟨400, .validationErrs errs⟩, st, [])) ∧
    (preq.UserID ≤ 0 → ∃ errs, ValidatePostRequest preq = some errs ∧
      (∃ e ∈ errs, e.field = "user_id") ∧
      PostHandler.CreatePost now preq st = (⟨400, .validationErrs errs⟩, st, [])) := by
  refine ⟨by simp [ValidateUserRequest], ?_, ?_, ?_, ?_, ?_, ?_⟩
  · intro h
    obtain ⟨errs, heq, hmem⟩ := validateUser_username_missing isE ureq h
    exact ⟨errs, heq, ⟨_, hmem, rfl⟩, createUserHandler_invalid hash isE now ureq st errs heq⟩
  · intro h
    obtain ⟨errs, heq, hmem⟩ := validateUser_email_missing isE ureq h
    exact ⟨errs, heq, ⟨_, hmem, rfl⟩, createUserHandler_invalid hash isE now ureq st errs heq⟩
  · intro h
    obtain ⟨errs, heq, hmem⟩ := validateUser_password_missing isE ureq h
    exact ⟨errs, heq, ⟨_, hmem, rfl⟩, createUserHandler_invalid hash isE now ureq st errs heq⟩
  · intro h
    obtain ⟨errs, heq, hmem⟩ := validatePost_title_missing preq h
    exact ⟨errs, heq, ⟨_, hmem, rfl⟩, createPostHandler_invalid now preq st errs heq⟩
  · intro h
    obtain ⟨errs, heq, hmem⟩ := validatePost_content_missing preq h
    exact ⟨errs, heq, ⟨_, hmem, rfl⟩, createPostHandler_invalid now preq st errs heq⟩
  · intro h
    obtain ⟨errs, heq, hmem⟩ := validatePost_userID_missing preq h
    exact ⟨errs, heq, ⟨_, hmem, rfl⟩, createPostHandler_invalid now preq st errs heq⟩

/-- Witness for C5 at the all-missing payloads. -/
theorem validation_collects_all_errors_witness :
    ValidateUserRequest (fun _ => true) ⟨"", "", ""⟩ =
      some [⟨"username", "username is required"⟩, ⟨"email", "email is required"⟩,
            ⟨"password", "password is required"⟩] ∧
    UserHandler.CreateUser (fun s => s) (fun _ => true) 0 ⟨"", "", ""⟩ ⟨[], []⟩ =
      (⟨400, .validationErrs
          [⟨"username", "username is required"⟩, ⟨"email", "email is required"⟩,
           ⟨"password", "password is required"⟩]⟩, ⟨[], []⟩, []) ∧
    PostHandler.CreatePost 0 ⟨"", "", 0⟩ ⟨[], []⟩ =
      (⟨400, .validationErrs
          [⟨"title", "title is required"⟩, ⟨"content", "content is required"⟩,
           ⟨"user_id", "user_id must be a positive integer"⟩]⟩, ⟨[], []⟩, []) := by
  have h := validation_collects_all_errors (fun s => s) (fun _ => true) 0
    ⟨"", "", ""⟩ ⟨"", "", 0⟩ ⟨[], []⟩
  refine ⟨h.1, ?_, ?_⟩
  · obtain ⟨errs, heq, _, hh⟩ := h.2.1 rfl
    rw [h.1] at heq
    injection heq with heq
    rw [← heq] at hh
    exact hh
  · obtain ⟨errs, heq, _, hh⟩ := h.2.2.2.2.1 rfl
    have heq' : ValidatePostRequest ⟨"", "", 0⟩ =
        some [⟨"title", "title is required"⟩, ⟨"content", "content is required"⟩,
              ⟨"user_id", "user_id must be a positive integer"⟩] := by
      simp [ValidatePostRequest]
    rw [heq'] at heq
    injection heq with heq
    rw [← heq] at hh
    exact hh

/-- C6: a post create whose owner id references no user is answered by
the handler's existence pre-check — 400 with the dedicated message
"Invalid user ID: user does not exist" (not 500) — before any store
insert: the call list holds only the user lookup, never the insert.
The post update handler performs the same pre-check whenever a non-zero
user_id is supplied. -/
theorem post_owner_precheck (now : Nat) (preq prequ : PostRequest)
    (idStr : String) (id : Int) (st : DBState)
    (hv : ValidatePostRequest preq = none)
    (ha : st.users.find? (fun u => u.ID == preq.UserID) = none)
    (hvu : ValidatePostUpdateRequest prequ = none)
    (hnz : prequ.UserID ≠ 0)
    (hau : st.users.find? (fun u => u.ID == prequ.UserID) = none)
    (hid : parseIDFromURL (some idStr) = some id) :
    PostHandler.CreatePost now preq st =
      (⟨400, .errMsg "Invalid user ID: user does not exist"⟩, st,
       [.getUserByID preq.UserID]) ∧
    PostHandler.UpdatePost (some idStr) prequ st =
      (⟨400, .errMsg "Invalid user ID: user does not exist"⟩, st,
       [.getUserByID prequ.UserID]) := by
  constructor
  · simp [PostHandler.CreatePost, hv, GetUserByID, ha]
  · simp [PostHandler.UpdatePost, hid, hvu, GetUserByID, hau, hnz]

/-- Witness for C6: creating (or retitling-and-reowning) a post against
an empty user table. -/
theorem post_owner_precheck_witness :
    PostHandler.CreatePost 0 ⟨"t", "c", 5⟩ ⟨[], []⟩ =
      (⟨400, .errMsg "Invalid user ID: user does not exist"⟩, ⟨[], []⟩,
       [.getUserByID 5]) ∧
    PostHandler.UpdatePost (some "3") ⟨"", "", 5⟩ ⟨[], []⟩ =
      (⟨400, .errMsg "Invalid user ID: user does not exist"⟩, ⟨[], []⟩,
       [.getUserByID 5]) := by
  exact post_owner_precheck 0 ⟨"t", "c", 5⟩ ⟨"", "", 5⟩ "3" 3 ⟨[], []⟩
    (by decide) rfl (by decide) (by decide) rfl (by decide)

/-- C7: the password hash is absent from every outward representation —
two users differing only in their hash have identical JSON encodings
(the `json:"-"` tag excludes the field), and a user returned by a
successful `VerifyPassword` carries an empty hash. -/
theorem password_hash_not_exposed (u1 u2 : UserRow) (check : String → String → Bool)
    (st : DBState) (un pw : String) (usr : UserRow)
    (hID : u1.ID = u2.ID) (hU : u1.Username = u2.Username)
    (hE : u1.Email = u2.Email) (hC : u1.CreatedAt = u2.CreatedAt)
    (hv : VerifyPassword check st un pw = .ok usr) :
    userJSONFields u1 = userJSONFields u2 ∧ usr.PasswordHash = "" := by
  refine ⟨by simp [userJSONFields, hID, hU, hE, hC], ?_⟩
  unfold VerifyPassword at hv
  rcases hfind : st.users.find? (fun u => u.Username == un) with _ | user
  · simp only [hfind] at hv
    exact Except.noConfusion hv
  · simp only [hfind] at hv
    by_cases hc : check user.PasswordHash pw
    · rw [if_pos hc] at hv
      injection hv with hv
      rw [← hv]
    · rw [if_neg hc] at hv
      simp at hv

/-- Witness for C7: two concrete users differing only in the stored
hash, and a concrete successful password verification. -/
theorem password_hash_not_exposed_witness :
    userJSONFields ⟨1, "ana", "ana@x.com", "hash-one", 5⟩ =
      userJSONFields ⟨1, "ana", "ana@x.com", "hash-two", 5⟩ ∧
    (⟨1, "ana", "ana@x.com", "", 5⟩ : UserRow).PasswordHash = "" := by
  exact password_hash_not_exposed
    ⟨1, "ana", "ana@x.com", "hash-one", 5⟩ ⟨1, "ana", "ana@x.com", "hash-two", 5⟩
    (fun _ _ => true) ⟨[⟨1, "ana", "ana@x.com", "stored-hash", 5⟩], []⟩ "ana" "pw"
    ⟨1, "ana", "ana@x.com", "", 5⟩ rfl rfl rfl rfl (by rfl)

/-- Resulting state of a post update whose builder produced at least one
assignment: exactly the matching rows get the assigned columns. -/
theorem updatePost_snd (id : Int) (req : PostRequest) (st : DBState)
    (hne : ¬(buildPostUpdate req).1 = []) :
    (UpdatePost id req st).2 =
      { st with posts := st.posts.map fun p =>
          if p.ID == id then applyPostReq req p else p } := by
  unfold UpdatePost
  rcases hf : st.posts.find? (fun p => p.ID == id) with _ | row <;>
    simp [execUpdatePosts, hf, hne]

/-- C8: a post update supplying only a title (content empty, user_id
zero) builds a single `title = $1` assignment, leaves the users table
and every non-matching post untouched, and on the matching post changes
the title alone — content, owner, id and creation timestamp are those of
the old row. -/
theorem title_only_update_frame (st : DBState) (id : Int) (title : String)
    (h : title ≠ "") :
    buildPostUpdate ⟨title, "", 0⟩ = (["title = $1"], [SqlValue.s title], 2) ∧
    (UpdatePost id ⟨title, "", 0⟩ st).2 =
      { st with posts := st.posts.map fun p =>
          if p.ID == id then { p with Title := title } else p } ∧
    (UpdatePost id ⟨title, "", 0⟩ st).2.users = st.users ∧
    (∀ p : PostRow, (applyPostReq ⟨title, "", 0⟩ p).Content = p.Content ∧
      (applyPostReq ⟨title, "", 0⟩ p).UserID = p.UserID ∧
      (applyPostReq ⟨title, "", 0⟩ p).ID = p.ID ∧
      (applyPostReq ⟨title, "", 0⟩ p).CreatedAt = p.CreatedAt ∧
      (applyPostReq ⟨title, "", 0⟩ p).Title = title) := by
  have happ : ∀ p : PostRow, applyPostReq ⟨title, "", 0⟩ p = { p with Title := title } := by
    intro p
    simp [applyPostReq, h]
  have hts : ("title = $" ++ toString 1 : String) = "title = $1" := rfl
  have hb : buildPostUpdate ⟨title, "", 0⟩ = (["title = $1"], [SqlValue.s title], 2) := by
    simp [buildPostUpdate, h, hts]
  have hsnd := updatePost_snd id ⟨title, "", 0⟩ st (by rw [hb]; simp)
  refine ⟨hb, ?_, ?_, fun p => by simp [happ p]⟩
  · rw [hsnd]
    simp only [happ]
  · rw [hsnd]

/-- Witness for C8 on a two-post store. -/
theorem title_only_update_frame_witness :
    buildPostUpdate ⟨"x", "", 0⟩ = (["title = $1"], [SqlValue.s "x"], 2) ∧
    (UpdatePost 1 ⟨"x", "", 0⟩
        ⟨[⟨1, "u", "e", "h", 0⟩],
         [⟨1, "old", "body", 1, 3⟩, ⟨2, "other", "kept", 1, 4⟩]⟩).2 =
      ⟨[⟨1, "u", "e", "h", 0⟩],
       [⟨1, "x", "body", 1, 3⟩, ⟨2, "other", "kept", 1, 4⟩]⟩ := by
  have h := title_only_update_frame
    ⟨[⟨1, "u", "e", "h", 0⟩], [⟨1, "old", "body", 1, 3⟩, ⟨2, "other", "kept", 1, 4⟩]⟩
    1 "x" (by decide)
  refine ⟨h.1, ?_⟩
  rw [h.2.1]
  rfl

/-- Mapping a guarded rewrite over a list with no matching element is
the identity. -/
theorem map_if_not_matching {α : Type} (l : List α) (q : α → Bool) (f : α → α)
    (h : ∀ a ∈ l, q a = false) :
    (l.map fun a => if q a then f a else a) = l := by
  induction l with
  | nil => rfl
  | cons x xs ih =>
      have hx := h x (List.mem_cons_self x xs)
      have ih' := ih fun a ha => h a (List.mem_cons_of_mem x ha)
      simp [hx, ih']

/-- Numbered assignment texts of a non-empty field list are non-empty. -/
theorem numberParts_ne_nil (k : Nat) (l : List (String × SqlValue)) (h : l ≠ []) :
    numberParts k l ≠ [] := by
  cases l with
  | nil => exact absurd rfl h
  | cons x xs => simp [numberParts]

/-- C9: an id matching no stored record makes update and delete fail
with the NotFound condition and leaves the state unchanged — the deletes
answer "not found" exactly when zero rows were affected, and the updates
answer "not found" when the mutation returns no row. -/
theorem missing_id_not_found
    (st : DBState) (uid pid : Int) (hash : String → String)
    (ureq : UserRequest) (preq : PostRequest)
    (hu : ∀ u ∈ st.users, u.ID ≠ uid) (hp : ∀ p ∈ st.posts, p.ID ≠ pid)
    (hur : ureq.Username ≠ "" ∨ ureq.Email ≠ "" ∨ ureq.Password ≠ "")
    (hpr : preq.Title ≠ "" ∨ preq.Content ≠ "" ∨ preq.UserID ≠ 0) :
    DeleteUser st uid = (.error "user not found", st) ∧
    DeletePost st pid = (.error "post not found", st) ∧
    (∀ s i, (DeleteUser s i).1 = .error "user not found" ↔
      s.users.countP (fun u => u.ID == i) = 0) ∧
    (∀ s i, (DeletePost s i).1 = .error "post not found" ↔
      s.posts.countP (fun p => p.ID == i) = 0) ∧
    UpdateUser hash uid ureq st = (.error "user not found", st) ∧
    UpdatePost pid preq st = (.error "post not found", st) := by
  have hanyu : (st.users.any fun u => u.ID == uid) = false := by
    simp only [List.any_eq_false]
    intro u hmem
    simp [hu u hmem]
  have hcountu : st.users.countP (fun u => u.ID == uid) = 0 := by
    rw [List.countP_eq_zero]
    intro u hmem
    simp [hu u hmem]
  have hcountp : st.posts.countP (fun p => p.ID == pid) = 0 := by
    rw [List.countP_eq_zero]
    intro p hmem
    simp [hp p hmem]
  have hfilu : st.users.filter (fun u => !(u.ID == uid)) = st.users := by
    rw [List.filter_eq_self]
    intro u hmem
    simp [hu u hmem]
  have hfilp : st.posts.filter (fun p => !(p.ID == pid)) = st.posts := by
    rw [List.filter_eq_self]
    intro p hmem
    simp [hp p hmem]
  have hfilcascade :
      st.posts.filter
        (fun p => !(p.UserID == uid && st.users.any fun u => u.ID == uid)) = st.posts := by
    rw [List.filter_eq_self]
    intro p _
    simp [hanyu]
  have hfindu : st.users.find? (fun u => u.ID == uid) = none := by
    rw [List.find?_eq_none]
    intro u hmem
    simp [hu u hmem]
  have hfindp : st.posts.find? (fun p => p.ID == pid) = none := by
    rw [List.find?_eq_none]
    intro p hmem
    simp [hp p hmem]
  have hmapu : (st.users.map fun u =>
      if u.ID == uid then applyUserReq hash ureq u else u) = st.users :=
    map_if_not_matching _ _ _ fun u hmem => by simp [hu u hmem]
  have hmapp : (st.posts.map fun p =>
      if p.ID == pid then applyPostReq preq p else p) = st.posts :=
    map_if_not_matching _ _ _ fun p hmem => by simp [hp p hmem]
  have hbu : ¬(buildUserUpdate hash ureq).1 = [] := by
    rw [buildUserUpdate_eq]
    refine numberParts_ne_nil 1 _ ?_
    rcases hur with h | h | h <;> simp [userPresentFields, h]
  have hbp : ¬(buildPostUpdate preq).1 = [] := by
    rw [buildPostUpdate_eq]
    refine numberParts_ne_nil 1 _ ?_
    rcases hpr with h | h | h <;> simp [postPresentFields, h]
  refine ⟨?_, ?_, ?_, ?_, ?_, ?_⟩
  · simp only [DeleteUser]
    rw [if_pos hcountu, hfilu, hfilcascade]
  · simp only [DeletePost]
    rw [if_pos hcountp, hfilp]
  · intro s i
    by_cases hc : s.users.countP (fun u => u.ID == i) = 0 <;> simp [DeleteUser, hc]
  · intro s i
    by_cases hc : s.posts.countP (fun p => p.ID == i) = 0 <;> simp [DeletePost, hc]
  · simp only [UpdateUser]
    rw [if_neg hbu]
    simp only [execUpdateUsers, hfindu, Option.map_none']
    rw [hmapu]
  · simp only [UpdatePost]
    rw [if_neg hbp]
    simp only [execUpdatePosts, hfindp, Option.map_none']
    rw [hmapp]

/-- Witness for C9 on a one-user one-post store and an unused id. -/
theorem missing_id_not_found_witness :
    DeleteUser ⟨[⟨1, "a", "e", "h", 0⟩], [⟨1, "t", "c", 1, 0⟩]⟩ 2 =
      (.error "user not found", ⟨[⟨1, "a", "e", "h", 0⟩], [⟨1, "t", "c", 1, 0⟩]⟩) ∧
    UpdatePost 2 ⟨"x", "", 0⟩ ⟨[⟨1, "a", "e", "h", 0⟩], [⟨1, "t", "c", 1, 0⟩]⟩ =
      (.error "post not found", ⟨[⟨1, "a", "e", "h", 0⟩], [⟨1, "t", "c", 1, 0⟩]⟩) := by
  have h := missing_id_not_found ⟨[⟨1, "a", "e", "h", 0⟩], [⟨1, "t", "c", 1, 0⟩]⟩ 2 2
    (fun s => s) ⟨"bob", "", ""⟩ ⟨"x", "", 0⟩ (by decide) (by decide)
    (Or.inl (by decide)) (Or.inl (by decide))
  exact ⟨h.1, h.2.2.2.2.2⟩

/-- C10: a request whose id path parameter is absent, non-numeric, or
parses to an integer at most zero is answered 400 ("Invalid user ID" /
"Invalid post ID") by every id-parameterized handler with no store
operation; in particular the id "0", which the route pattern admits,
yields 400, not 404. -/
theorem invalid_id_rejected
    (hash : String → String) (isE : String → Bool) (ureq : UserRequest)
    (preq : PostRequest) (st : DBState) (idParam : Option String)
    (h : parseIDFromURL idParam = none) :
    UserHandler.GetUser idParam st = (⟨400, .errMsg "Invalid user ID"⟩, []) ∧
    UserHandler.UpdateUser hash isE idParam ureq st =
      (⟨400, .errMsg "Invalid user ID"⟩, st, []) ∧
    UserHandler.DeleteUser idParam st = (⟨400, .errMsg "Invalid user ID"⟩, st, []) ∧
    PostHandler.GetPost idParam st = (⟨400, .errMsg "Invalid post ID"⟩, []) ∧
    PostHandler.UpdatePost idParam preq st = (⟨400, .errMsg "Invalid post ID"⟩, st, []) ∧
    PostHandler.DeletePost idParam st = (⟨400, .errMsg "Invalid post ID"⟩, st, []) ∧
    parseIDFromURL none = none ∧
    (∀ v, strconvAtoi v = none → parseIDFromURL (some v) = none) ∧
    (∀ v n, strconvAtoi v = some n → n ≤ 0 → parseIDFromURL (some v) = none) ∧
    parseIDFromURL (some "0") = none := by
  refine ⟨?_, ?_, ?_, ?_, ?_, ?_, rfl, ?_, ?_, by decide⟩
  · simp [UserHandler.GetUser, h]
  · simp [UserHandler.UpdateUser, h]
  · simp [UserHandler.DeleteUser, h]
  · simp [PostHandler.GetPost, h]
  · simp [PostHandler.UpdatePost, h]
  · simp [PostHandler.DeletePost, h]
  · intro v hv
    simp [parseIDFromURL, hv]
  · intro v n hv hn
    simp [parseIDFromURL, hv, hn]

/-- Witness for C10 at the id "0" (and a non-numeric and a negative
id for the parser facts). -/
theorem invalid_id_rejected_witness :
    UserHandler.GetUser (some "0") ⟨[], []⟩ = (⟨400, .errMsg "Invalid user ID"⟩, []) ∧
    PostHandler.GetPost (some "0") ⟨[], []⟩ = (⟨400, .errMsg "Invalid post ID"⟩, []) ∧
    parseIDFromURL (some "abc") = none ∧
    parseIDFromURL (some "-3") = none := by
  obtain ⟨h1, _, _, h4, _, _, _, h8, h9, _⟩ :=
    invalid_id_rejected (fun s => s) (fun _ => true) ⟨"", "", ""⟩ ⟨"", "", 0⟩
      ⟨[], []⟩ (some "0") (by decide)
  exact ⟨h1, h4, h8 "abc" (by decide), h9 "-3" (-3) (by decide) (by decide)⟩

end GoBlog
